import Mathlib

/-!
Shallow embedding of `src/project.py` (`SleepHealthAnalyzer`), a small
pandas/tkinter application that loads a CSV of sleep-health records, derives a
sleep-quality category column, and offers a menu with a table view and a chart
suite.

Modelling conventions:
* A CSV cell is `Option ℚ` (numeric) or `Option String` (textual); `none`
  models a missing value (pandas `NaN`).
* `pd.read_csv(...).dropna()` keeps exactly the rows in which every modelled
  field is present (`dropna`).
* Float arithmetic of the radial-chart normalization is modelled over `ℚ`
  wrapped in `Option`: `none` stands for a non-finite float (`NaN`/`inf`),
  produced by pandas reductions over empty data and by division by zero, and
  propagated by the arithmetic as IEEE non-finite values are.
* GUI calls (`messagebox.showerror`, `tkinter` windows, plotting `show()`)
  are modelled by the data they would display: a `Dialog`, a table-view row
  list, a `Chart` list. The methods return the analyzer's dataframe unchanged,
  mirroring that no method body ever rebinds `self.df`.
-/

namespace SleepHealth

/-- One row of the dataset, with the columns the program reads.  `none` is a
missing cell (pandas `NaN`). -/
structure Record where
  gender : Option String
  sleepDuration : Option ℚ
  qualityOfSleep : Option ℚ
  physicalActivityLevel : Option ℚ
  stressLevel : Option ℚ
  heartRate : Option ℚ
  dailySteps : Option ℚ
deriving Repr, DecidableEq

/-- A row survives `DataFrame.dropna()` iff every field is present. -/
def Record.complete (r : Record) : Bool :=
  r.gender.isSome && r.sleepDuration.isSome && r.qualityOfSleep.isSome &&
  r.physicalActivityLevel.isSome && r.stressLevel.isSome &&
  r.heartRate.isSome && r.dailySteps.isSome

/-- The `df.dropna()` call in `read_file`: drop every row with a missing
field. -/
def dropna (rows : List Record) : List Record :=
  rows.filter Record.complete

/-- The in-memory dataframe `self.df`: the loaded rows plus, once
`setup_quality_categories` has run on non-empty data, the derived column
`Категория качества сна` (one `Option String` cell per row; `none` is a `NaN`
category). `catColumn = none` means the column was never added. -/
structure DataFrame where
  rows : List Record
  catColumn : Option (List (Option String))
deriving Repr, DecidableEq

/-- Pandas `df.empty`: true iff the frame has no rows (also true for the
`pd.DataFrame()` returned on load failure). -/
def DataFrame.isEmpty (df : DataFrame) : Bool :=
  df.rows.isEmpty

/-- The binning of `pd.cut(x, bins=[0, 3, 6, 10], labels=[Плохое, Среднее,
Хорошее], include_lowest=True)` applied to one score: intervals `[0,3]`,
`(3,6]`, `(6,10]` (the first closed below because of `include_lowest`), and
`NaN` (`none`) for a value outside `[0,10]`.  The spec calls the labels
"Low" / "Medium" / "High"; the source strings are the Russian
`Плохое` / `Среднее` / `Хорошее`. -/
def pdCut (s : ℚ) : Option String :=
  if 0 ≤ s ∧ s ≤ 3 then some "Плохое"
  else if 3 < s ∧ s ≤ 6 then some "Среднее"
  else if 6 < s ∧ s ≤ 10 then some "Хорошее"
  else none

/-- `pd.cut` on one cell of the `Quality of Sleep` column: a missing score
yields a missing category. -/
def pdCutCell (c : Option ℚ) : Option String :=
  match c with
  | none => none
  | some q => pdCut q

/-- The method `setup_quality_categories`: if the frame is non-empty, add the
derived column by cutting the `Quality of Sleep` column; on an empty frame do
nothing. -/
def setup_quality_categories (df : DataFrame) : DataFrame :=
  if df.isEmpty then df
  else { df with catColumn := some (df.rows.map (fun r => pdCutCell r.qualityOfSleep)) }

/-- Characters treated as whitespace by Python `str.strip()` and by
`textwrap`'s whitespace replacement (the ASCII whitespace set; the program's
inputs contain no other Unicode whitespace). -/
def isPySpace (c : Char) : Bool :=
  c = ' ' || c = '\t' || c = '\n' || c = '\x0d' || c = '\x0b' || c = '\x0c'

/-- Python `str.strip()`: remove leading and trailing whitespace. -/
def pyStrip (s : String) : String :=
  String.mk (((s.data.dropWhile isPySpace).reverse.dropWhile isPySpace).reverse)

/-- Greedy word-wrap helper: `wrapGo width rest cur` extends the current line
`cur` with the next word when `cur ++ " " ++ word` still fits in `width`
characters, and otherwise starts a new line. -/
def wrapGo (width : Nat) : List String → String → List String
  | [], cur => [cur]
  | w :: rest, cur =>
    if cur.length + 1 + w.length ≤ width then wrapGo width rest (cur ++ " " ++ w)
    else cur :: wrapGo width rest w

/-- Splitting a character stream into maximal whitespace-free words;
`cur` accumulates the characters of the word being read, in reverse. -/
def wordsAux : List Char → List Char → List String
  | [], cur => if cur.isEmpty then [] else [String.mk cur.reverse]
  | c :: cs, cur =>
    if isPySpace c then
      if cur.isEmpty then wordsAux cs []
      else String.mk cur.reverse :: wordsAux cs []
    else wordsAux cs (c :: cur)

/-- The words of a string, as `textwrap` produces them: whitespace characters
(tab and newline included) separate words and are dropped. -/
def pyWords (s : String) : List String :=
  wordsAux s.data []

/-- Python `textwrap.fill(s, width)` with the default options as exercised by
this program: the text is split into words at whitespace, the words are packed
greedily into lines of at most `width` characters separated by single spaces,
and the lines are joined with newlines.  (The program's messages start with a
fixed non-whitespace prefix and contain no word longer than the wrap width,
so `textwrap`'s preservation of leading whitespace on the first line and its
long-word splitting never fire and are not modelled.) -/
def pyFill (width : Nat) (s : String) : String :=
  String.intercalate "\n" (match pyWords s with
    | [] => []
    | w :: rest => wrapGo width rest w)

/-- One `messagebox.showerror(title, text)` call, by the data it displays. -/
structure Dialog where
  title : String
  text : String
deriving Repr, DecidableEq

/-- The method `show_error_message`: an error dialog titled `Ошибка` whose
text is the message word-wrapped at width 60 by `textwrap.fill`. -/
def show_error_message (message : String) : Dialog :=
  { title := "Ошибка", text := pyFill 60 message }

/-- Outcome of the `pd.read_csv` call inside `read_file`: a parsed row list,
a `FileNotFoundError`, or any other exception (with its message text). -/
inductive ReadResult where
  | ok (rows : List Record)
  | fileNotFound
  | otherError (msg : String)
deriving Repr, DecidableEq

/-- The method `read_file`: on success return the parsed frame with incomplete
rows dropped; on `FileNotFoundError` or any other exception show an error
dialog and return the empty frame `pd.DataFrame()`.  The list of dialogs is
the method's only side effect; both handlers return normally, so no exception
escapes the method. -/
def read_file (path : String) (res : ReadResult) : DataFrame × List Dialog :=
  match res with
  | .ok rows => (⟨dropna rows, none⟩, [])
  | .fileNotFound =>
      (⟨[], none⟩,
       [show_error_message ("Файл \x27" ++ path ++ "\x27 не найден. Проверь путь и повтори попытку.")])
  | .otherError e =>
      (⟨[], none⟩, [show_error_message ("Не удалось загрузить данные:\n" ++ e)])

/-- The constructor of `SleepHealthAnalyzer`: `self.df = self.read_file(path)`
followed by `self.setup_quality_categories()`.  Returns the resulting frame
and the dialogs shown during construction. -/
def mkAnalyzer (path : String) (res : ReadResult) : DataFrame × List Dialog :=
  let (df, dialogs) := read_file path res
  (setup_quality_categories df, dialogs)

/-- The values of one displayed table row: the record plus, when the derived
column exists, its category cell (outer `none` = the column was never added). -/
def rowValues (r : Record) (cat : Option (Option String)) : Record × Option (Option String) :=
  (r, cat)

/-- The cell lists fed to the table: each row of the frame paired with its
derived-category cell when the column exists. -/
def tableValues (df : DataFrame) : List (Record × Option (Option String)) :=
  match df.catColumn with
  | none => df.rows.map (fun r => (r, none))
  | some cats => (df.rows.zip cats).map (fun p => (p.1, some p.2))

/-- The `tree.insert` loop of `show_full_dataset`: the first 200 rows
(`df.head(200)`), enumerated from 1, each tagged `evenrow` when its 1-based
index is even and `oddrow` otherwise. -/
def tableRows (df : DataFrame) : List ((Record × Option (Option String)) × String) :=
  ((tableValues df).take 200).enum.map
    (fun p => (p.2, if (p.1 + 1) % 2 = 0 then "evenrow" else "oddrow"))

/-- Outcome of one `show_full_dataset` call: the dialogs shown and the table
view opened, if any. -/
structure TableOutcome where
  dialogs : List Dialog
  view : Option (List ((Record × Option (Option String)) × String))
deriving Repr, DecidableEq

/-- The method `show_full_dataset`: on an empty frame show the no-data error
dialog and return without opening a view; otherwise open the table view with
the first 200 tagged rows.  The frame itself is returned unchanged: the method
never rebinds `self.df`. -/
def show_full_dataset (df : DataFrame) : TableOutcome × DataFrame :=
  if df.isEmpty then
    ({ dialogs := [show_error_message "Нет данных для отображения"], view := none }, df)
  else
    ({ dialogs := [], view := some (tableRows df) }, df)

/-- The finite values of a column, as pandas reductions see them: `NaN` cells
are skipped (`skipna=True`, the default for `min`/`max`/`mean`). -/
def finiteCells (col : List (Option ℚ)) : List ℚ :=
  col.filterMap id

/-- Pandas `Series.min()`: minimum of the finite cells, `NaN` (`none`) when
there are none. -/
def pdMin (col : List (Option ℚ)) : Option ℚ :=
  match finiteCells col with
  | [] => none
  | v :: vs => some (vs.foldl min v)

/-- Pandas `Series.max()`: maximum of the finite cells, `NaN` (`none`) when
there are none. -/
def pdMax (col : List (Option ℚ)) : Option ℚ :=
  match finiteCells col with
  | [] => none
  | v :: vs => some (vs.foldl max v)

/-- Pandas `Series.mean()`: arithmetic mean of the finite cells, `NaN`
(`none`) when there are none. -/
def pdMean (col : List (Option ℚ)) : Option ℚ :=
  match finiteCells col with
  | [] => none
  | v :: vs => some ((v :: vs).sum / (v :: vs).length)

/-- Float subtraction over the `Option ℚ` model: a non-finite operand makes
the result non-finite. -/
def fsub (a b : Option ℚ) : Option ℚ :=
  match a, b with
  | some x, some y => some (x - y)
  | _, _ => none

/-- Float division over the `Option ℚ` model: a non-finite operand, or a zero
divisor, makes the result non-finite (IEEE gives `NaN` or `±inf`; the model
does not distinguish them). -/
def fdiv (a b : Option ℚ) : Option ℚ :=
  match a, b with
  | some x, some y => if y = 0 then none else some (x / y)
  | _, _ => none

/-- Float multiplication by a finite constant over the `Option ℚ` model. -/
def fmul (a : Option ℚ) (c : ℚ) : Option ℚ :=
  match a with
  | some x => some (x * c)
  | none => none

/-- The six numeric features of the radial chart, in the source's order
(the `categories` list of `show_analytics`). -/
inductive Feature where
  | sleepDuration
  | qualityOfSleep
  | physicalActivityLevel
  | stressLevel
  | heartRate
  | dailySteps
deriving Repr, DecidableEq

/-- Column selection `self.df[category]` for a radial-chart feature. -/
def featureCol (f : Feature) (r : Record) : Option ℚ :=
  match f with
  | .sleepDuration => r.sleepDuration
  | .qualityOfSleep => r.qualityOfSleep
  | .physicalActivityLevel => r.physicalActivityLevel
  | .stressLevel => r.stressLevel
  | .heartRate => r.heartRate
  | .dailySteps => r.dailySteps

/-- The `categories` list of `show_analytics`. -/
def radialFeatures : List Feature :=
  [.sleepDuration, .qualityOfSleep, .physicalActivityLevel,
   .stressLevel, .heartRate, .dailySteps]

/-- The body of the normalization loop for one feature:
`((df[c].mean() - df[c].min()) / (df[c].max() - df[c].min())) * 100`. -/
def normVal (col : List (Option ℚ)) : Option ℚ :=
  let max_val := pdMax col
  let min_val := pdMin col
  fmul (fdiv (fsub (pdMean col) min_val) (fsub max_val min_val)) 100

/-- The radial bar length computed for feature `f` over the frame `df`. -/
def normValFor (f : Feature) (df : DataFrame) : Option ℚ :=
  normVal (df.rows.map (featureCol f))

/-- The `normalized_values` list built by the loop of `show_analytics`, one
value per feature in `categories` order. -/
def normalized_values (df : DataFrame) : List (Option ℚ) :=
  radialFeatures.map (fun f => normValFor f df)

/-- One chart produced by `show_analytics`, by the data it renders. -/
inductive Chart where
  | bar (x y : List (Option ℚ))
  | scatter (x y hue : List (Option ℚ))
  | violin (x : List (Option String)) (y : List (Option ℚ))
  | radial (values : List (Option ℚ))
deriving Repr, DecidableEq

/-- Outcome of one `show_analytics` call: the dialogs shown and the charts
rendered, in order. -/
structure AnalyticsOutcome where
  dialogs : List Dialog
  charts : List Chart
deriving Repr, DecidableEq

/-- The method `show_analytics`: on an empty frame show the no-data error
dialog (passed to `messagebox.showerror` directly, without `textwrap.fill`)
and render nothing; otherwise render, in order, the stress/quality bar chart,
the steps/duration scatter, the quality-by-gender violin plot and the radial
bar chart of `normalized_values`.  The frame is returned unchanged: the method
never rebinds `self.df`. -/
def show_analytics (df : DataFrame) : AnalyticsOutcome × DataFrame :=
  if df.isEmpty then
    ({ dialogs := [{ title := "Ошибка", text := "Нет данных для анализа" }], charts := [] }, df)
  else
    ({ dialogs := [],
       charts :=
         [Chart.bar (df.rows.map Record.stressLevel) (df.rows.map Record.qualityOfSleep),
          Chart.scatter (df.rows.map Record.dailySteps) (df.rows.map Record.sleepDuration)
            (df.rows.map Record.qualityOfSleep),
          Chart.violin (df.rows.map Record.gender) (df.rows.map Record.qualityOfSleep),
          Chart.radial (normalized_values df)] }, df)

/-- One observable event of the menu loop `run`: the menu prompt being
printed, a dispatch to a presenter, the invalid-input message, or the farewell
printed before the loop breaks. -/
inductive MenuEvent where
  | prompt
  | invokeTable
  | invokeCharts
  | invalidMsg
  | farewell
deriving Repr, DecidableEq

/-- The method `run`: print the menu, read a line, strip it, and dispatch:
`"1"` invokes the table view, `"2"` the chart suite, `"3"` prints the farewell
and breaks the loop, anything else prints the invalid-input message; then loop.
The argument is the sequence of lines standard input will yield; an exhausted
input ends the modelled trace (the real `input()` call would block or raise
`EOFError` there, outside the behaviour the spec describes). -/
def run : List String → List MenuEvent
  | [] => []
  | line :: rest =>
    let choice := pyStrip line
    if choice = "1" then MenuEvent.prompt :: MenuEvent.invokeTable :: run rest
    else if choice = "2" then MenuEvent.prompt :: MenuEvent.invokeCharts :: run rest
    else if choice = "3" then [MenuEvent.prompt, MenuEvent.farewell]
    else MenuEvent.prompt :: MenuEvent.invalidMsg :: run rest

/-- Spec-side minimum of a feature's value list (the spec's `min(feature)`;
meaningful on non-empty lists, 0 as an unused default on `[]`). -/
def specMin : List ℚ → ℚ
  | [] => 0
  | v :: vs => vs.foldl min v

/-- Spec-side maximum of a feature's value list (the spec's `max(feature)`). -/
def specMax : List ℚ → ℚ
  | [] => 0
  | v :: vs => vs.foldl max v

/-- Spec-side mean of a feature's value list (the spec's `mean(feature)`). -/
def specMean (xs : List ℚ) : ℚ :=
  xs.sum / xs.length

/-- The spec's normalization formula, written from the spec's words:
`normalized_value = ((mean(feature) - min(feature)) / (max(feature) - min(feature))) * 100`. -/
def specNormalized (xs : List ℚ) : ℚ :=
  ((specMean xs - specMin xs) / (specMax xs - specMin xs)) * 100

/-- A data-dependent user action of the menu: the table view or the chart
suite. -/
inductive UserAction where
  | table
  | charts
deriving Repr, DecidableEq

/-- The effect of one user action on the analyzer's dataframe. -/
def applyAction : UserAction → DataFrame → DataFrame
  | .table, df => (show_full_dataset df).2
  | .charts, df => (show_analytics df).2

/-- The dataframe after a sequence of user actions. -/
def runActions : List UserAction → DataFrame → DataFrame
  | [], df => df
  | a :: rest, df => runActions rest (applyAction a df)

/-- Well-formedness of a frame: when the derived column exists it has one
cell per row.  `read_file` and `setup_quality_categories` only build such
frames. -/
def DataFrame.wf (df : DataFrame) : Prop :=
  ∀ cats, df.catColumn = some cats → cats.length = df.rows.length

/-- A complete sample record (used to instantiate proved statements on
concrete data). -/
def sampleRecord : Record :=
  { gender := some "Male", sleepDuration := some 6, qualityOfSleep := some 7,
    physicalActivityLevel := some 42, stressLevel := some 5,
    heartRate := some 70, dailySteps := some 8000 }

/-- A sample record whose sleep-duration cell carries a given value. -/
def durRecord (d : ℚ) : Record :=
  { sampleRecord with sleepDuration := some d }

/-- The cut yields the first label exactly on `[0,3]`. -/
theorem pdCut_low (s : ℚ) : pdCut s = some "Плохое" ↔ (0 ≤ s ∧ s ≤ 3) := by
  unfold pdCut
  split_ifs with h1 h2 h3
  · simpa using h1
  · constructor
    · intro h; exact absurd (Option.some.inj h) (by decide)
    · intro h; exact absurd h h1
  · constructor
    · intro h; exact absurd (Option.some.inj h) (by decide)
    · intro h; exact absurd h h1
  · constructor
    · intro h; exact absurd h (by simp)
    · intro h; exact absurd h h1

/-- The cut yields the second label exactly on `(3,6]`. -/
theorem pdCut_med (s : ℚ) : pdCut s = some "Среднее" ↔ (3 < s ∧ s ≤ 6) := by
  unfold pdCut
  split_ifs with h1 h2 h3
  · constructor
    · intro h; exact absurd (Option.some.inj h) (by decide)
    · intro h; exact absurd h1.2 (not_le.mpr h.1)
  · simpa using h2
  · constructor
    · intro h; exact absurd (Option.some.inj h) (by decide)
    · intro h; exact absurd h h2
  · constructor
    · intro h; exact absurd h (by simp)
    · intro h; exact absurd h h2

/-- The cut yields the third label exactly on `(6,10]`. -/
theorem pdCut_high (s : ℚ) : pdCut s = some "Хорошее" ↔ (6 < s ∧ s ≤ 10) := by
  unfold pdCut
  split_ifs with h1 h2 h3
  · constructor
    · intro h; exact absurd (Option.some.inj h) (by decide)
    · intro h; exact absurd h1.2 (by linarith [h.1])
  · constructor
    · intro h; exact absurd (Option.some.inj h) (by decide)
    · intro h; exact absurd h2.2 (not_le.mpr h.1)
  · simpa using h3
  · constructor
    · intro h; exact absurd h (by simp)
    · intro h; exact absurd h h3

/-- The cut yields no label exactly outside `[0,10]`. -/
theorem pdCut_nan (s : ℚ) : pdCut s = none ↔ ¬ (0 ≤ s ∧ s ≤ 10) := by
  unfold pdCut
  split_ifs with h1 h2 h3
  · constructor
    · intro h; exact absurd h (by simp)
    · intro h; exact absurd ⟨h1.1, le_trans h1.2 (by norm_num)⟩ h
  · constructor
    · intro h; exact absurd h (by simp)
    · intro h; exact absurd ⟨by linarith [h2.1], by linarith [h2.2]⟩ h
  · constructor
    · intro h; exact absurd h (by simp)
    · intro h; exact absurd ⟨by linarith [h3.1], h3.2⟩ h
  · constructor
    · intro _ hs
      rcases le_or_lt s 3 with hs3 | hs3
      · exact h1 ⟨hs.1, hs3⟩
      · rcases le_or_lt s 6 with hs6 | hs6
        · exact h2 ⟨hs3, hs6⟩
        · exact h3 ⟨hs6, hs.2⟩
    · intro _; rfl

/-- Adding the derived column on non-empty rows cuts every quality cell. -/
theorem setup_on_rows (rows : List Record) (h : rows ≠ []) :
    (setup_quality_categories ⟨rows, none⟩).catColumn
      = some (rows.map (fun r => pdCutCell r.qualityOfSleep)) := by
  unfold setup_quality_categories DataFrame.isEmpty
  simp [List.isEmpty_iff, h]

/-- C1, amended: the derived category is `Плохое` ("Low") iff the score is in
`[0,3]`, `Среднее` ("Medium") iff in `(3,6]`, `Хорошее` ("High") iff in
`(6,10]`; every retained record whose score lies in `[0,10]` receives exactly
one category, a score outside `[0,10]` receives none (`NaN`); the boundary
scores 0 and 3 are Low, 6 is Medium, 10 is High; and on non-empty data the
derived column is the cut of every retained record's score. -/
theorem C1_category_binning :
    (∀ s : ℚ,
        (pdCut s = some "Плохое" ↔ (0 ≤ s ∧ s ≤ 3))
      ∧ (pdCut s = some "Среднее" ↔ (3 < s ∧ s ≤ 6))
      ∧ (pdCut s = some "Хорошее" ↔ (6 < s ∧ s ≤ 10)))
    ∧ (∀ s : ℚ, 0 ≤ s → s ≤ 10 → ∃! c : String, pdCut s = some c)
    ∧ (∀ s : ℚ, ¬ (0 ≤ s ∧ s ≤ 10) → pdCut s = none)
    ∧ (pdCut 0 = some "Плохое" ∧ pdCut 3 = some "Плохое"
       ∧ pdCut 6 = some "Среднее" ∧ pdCut 10 = some "Хорошее")
    ∧ (∀ rows : List Record, rows ≠ [] →
        (setup_quality_categories ⟨rows, none⟩).catColumn
          = some (rows.map (fun r => pdCutCell r.qualityOfSleep))) := by
  refine ⟨fun s => ⟨pdCut_low s, pdCut_med s, pdCut_high s⟩, ?_, ?_, ?_, setup_on_rows⟩
  · intro s h0 h10
    rcases le_or_lt s 3 with h3 | h3
    · have hl := (pdCut_low s).mpr ⟨h0, h3⟩
      exact ⟨"Плохое", hl, fun c hc => by rw [hl] at hc; exact (Option.some.inj hc).symm⟩
    · rcases le_or_lt s 6 with h6 | h6
      · have hm := (pdCut_med s).mpr ⟨h3, h6⟩
        exact ⟨"Среднее", hm, fun c hc => by rw [hm] at hc; exact (Option.some.inj hc).symm⟩
      · have hh := (pdCut_high s).mpr ⟨h6, h10⟩
        exact ⟨"Хорошее", hh, fun c hc => by rw [hh] at hc; exact (Option.some.inj hc).symm⟩
  · intro s hs
    exact (pdCut_nan s).mpr hs
  · exact ⟨by decide, by decide, by decide, by decide⟩

/-- Counterexample to C1 as stated: a record with every field present and a
quality-of-sleep score of 11 is retained by `dropna`, yet the derived column
gives it no category (a `NaN` cell), so not every retained record receives
exactly one category. -/
theorem C1_counterexample :
    dropna [{ sampleRecord with qualityOfSleep := some 11 }]
        = [{ sampleRecord with qualityOfSleep := some 11 }]
    ∧ (setup_quality_categories
        ⟨[{ sampleRecord with qualityOfSleep := some 11 }], none⟩).catColumn
        = some [none] := by
  exact ⟨by decide, by decide⟩

/-- C1 theorem applied at concrete scores: 3 is categorized `Плохое`, a score
of 7 has exactly one category, and 11 has none. -/
theorem C1_category_binning_witness :
    pdCut 3 = some "Плохое"
    ∧ (∃! c : String, pdCut 7 = some c)
    ∧ pdCut 11 = none :=
  ⟨(C1_category_binning.1 3).1.mpr (by norm_num),
   C1_category_binning.2.1 7 (by norm_num) (by norm_num),
   C1_category_binning.2.2.1 11 (by norm_num)⟩

/-- A column with every cell present has exactly its values as finite cells. -/
theorem finiteCells_map_some (vals : List ℚ) : finiteCells (vals.map some) = vals := by
  induction vals with
  | nil => rfl
  | cons v vs ih => simp [finiteCells, List.filterMap_cons, ih]

/-- On a fully-present column, the pandas minimum is the spec minimum. -/
theorem pdMin_map_some (vals : List ℚ) (h : vals ≠ []) :
    pdMin (vals.map some) = some (specMin vals) := by
  unfold pdMin
  rw [finiteCells_map_some]
  cases vals with
  | nil => exact absurd rfl h
  | cons v vs => rfl

/-- On a fully-present column, the pandas maximum is the spec maximum. -/
theorem pdMax_map_some (vals : List ℚ) (h : vals ≠ []) :
    pdMax (vals.map some) = some (specMax vals) := by
  unfold pdMax
  rw [finiteCells_map_some]
  cases vals with
  | nil => exact absurd rfl h
  | cons v vs => rfl

/-- On a fully-present column, the pandas mean is the spec mean. -/
theorem pdMean_map_some (vals : List ℚ) (h : vals ≠ []) :
    pdMean (vals.map some) = some (specMean vals) := by
  unfold pdMean
  rw [finiteCells_map_some]
  cases vals with
  | nil => exact absurd rfl h
  | cons v vs => rfl

/-- Normalizing a column of two equal cells divides zero by zero: the result
is non-finite. -/
theorem normVal_pair_const (v : ℚ) : normVal [some v, some v] = none := by
  have hmin : pdMin [some v, some v] = some v := by
    show some (List.foldl min v [v]) = some v
    simp
  have hmax : pdMax [some v, some v] = some v := by
    show some (List.foldl max v [v]) = some v
    simp
  have hmean : pdMean [some v, some v] = some v := by
    show some (([v, v] : List ℚ).sum / (([v, v] : List ℚ).length : ℚ)) = some v
    norm_num
  unfold normVal
  rw [hmin, hmax, hmean]
  simp [fsub, fdiv, fmul]

/-- C2: for any feature whose column is fully present and not constant, the
radial bar length computed by `show_analytics` is exactly the spec formula
`((mean - min) / (max - min)) * 100`; on the values `[2,4,6,8]` the computed
normalization is exactly 50; and the radial chart rendered for a non-empty
frame carries exactly the `normalized_values` list. -/
theorem C2_radial_normalization :
    (∀ (df : DataFrame) (f : Feature) (vals : List ℚ),
        df.rows.map (featureCol f) = vals.map some →
        vals ≠ [] →
        specMin vals < specMax vals →
        normValFor f df = some (specNormalized vals))
    ∧ normVal ([2, 4, 6, 8].map some) = some 50
    ∧ (∀ df : DataFrame, df.isEmpty = false →
        Chart.radial (normalized_values df) ∈ (show_analytics df).1.charts) := by
  refine ⟨?_, ?_, ?_⟩
  · intro df f vals hcol hne hlt
    unfold normValFor normVal
    rw [hcol, pdMin_map_some vals hne, pdMax_map_some vals hne, pdMean_map_some vals hne]
    have hne0 : specMax vals - specMin vals ≠ 0 := sub_ne_zero_of_ne (ne_of_gt hlt)
    simp [fsub, fdiv, fmul, hne0, specNormalized]
  · have h2 : ([2, 4, 6, 8] : List ℚ) ≠ [] := by simp
    unfold normVal
    rw [pdMin_map_some _ h2, pdMax_map_some _ h2, pdMean_map_some _ h2]
    norm_num [fsub, fdiv, fmul, specMin, specMax, specMean, min_def, max_def]
  · intro df h
    simp [show_analytics, h]

/-- C2 theorem applied to a concrete frame whose sleep-duration column is
`[2,4,6,8]`: the radial bar length is exactly 50. -/
theorem C2_radial_normalization_witness :
    normValFor Feature.sleepDuration
        ⟨[durRecord 2, durRecord 4, durRecord 6, durRecord 8], none⟩ = some 50 := by
  have h := C2_radial_normalization.1
    ⟨[durRecord 2, durRecord 4, durRecord 6, durRecord 8], none⟩
    Feature.sleepDuration [2, 4, 6, 8]
    (by simp [durRecord, sampleRecord, featureCol])
    (by simp)
    (by norm_num [specMin, specMax, min_def, max_def])
  rw [h]
  norm_num [specNormalized, specMin, specMax, specMean, min_def, max_def]

/-- C3, evaluated at the failing input the spec's edge case describes: on a
frame of two identical (hence feature-constant) records, every radial
normalization divides by zero, so all six bar values are non-finite (`none`),
and this `NaN` list is exactly what the rendered radial chart receives —
nothing in `show_analytics` guards or replaces it. -/
theorem C3_constant_feature_nan :
    normalized_values ⟨[sampleRecord, sampleRecord], none⟩ = List.replicate 6 none
    ∧ Chart.radial (List.replicate 6 none)
        ∈ (show_analytics ⟨[sampleRecord, sampleRecord], none⟩).1.charts := by
  have hnv : normalized_values ⟨[sampleRecord, sampleRecord], none⟩ = List.replicate 6 none := by
    simp [normalized_values, radialFeatures, normValFor, featureCol, sampleRecord,
      normVal_pair_const, List.replicate]
  refine ⟨hnv, ?_⟩
  rw [← hnv]
  simp [show_analytics, DataFrame.isEmpty]

/-- C4: on an empty frame, the table action shows exactly the no-data error
dialog and opens no view, and the analytics action shows exactly the no-data
error dialog and renders no chart; both return the frame unchanged (and, being
total functions, raise nothing). -/
theorem C4_empty_dataset_actions :
    ∀ df : DataFrame, df.isEmpty = true →
      show_full_dataset df
          = ({ dialogs := [show_error_message "Нет данных для отображения"], view := none }, df)
      ∧ show_analytics df
          = ({ dialogs := [{ title := "Ошибка", text := "Нет данных для анализа" }],
               charts := [] }, df) := by
  intro df h
  constructor
  · simp [show_full_dataset, h]
  · simp [show_analytics, h]

/-- C4 theorem applied to the empty frame produced by a failed load. -/
theorem C4_empty_dataset_actions_witness :
    show_full_dataset ⟨[], none⟩
        = ({ dialogs := [show_error_message "Нет данных для отображения"], view := none },
           ⟨[], none⟩)
    ∧ show_analytics ⟨[], none⟩
        = ({ dialogs := [{ title := "Ошибка", text := "Нет данных для анализа" }],
             charts := [] }, ⟨[], none⟩) :=
  C4_empty_dataset_actions ⟨[], none⟩ rfl

/-- C5: for every path, a `FileNotFoundError` and any other read error each
produce exactly one error dialog and the empty frame; the constructor then
yields a zero-record dataset with one dialog shown.  `read_file` is a total
function of the read outcome, so no failure escapes it. -/
theorem C5_load_failure :
    ∀ (path e : String),
      read_file path ReadResult.fileNotFound
        = (⟨[], none⟩,
           [show_error_message
             ("Файл \x27" ++ path ++ "\x27 не найден. Проверь путь и повтори попытку.")])
      ∧ read_file path (ReadResult.otherError e)
        = (⟨[], none⟩, [show_error_message ("Не удалось загрузить данные:\n" ++ e)])
      ∧ (mkAnalyzer path ReadResult.fileNotFound).1.rows = []
      ∧ (mkAnalyzer path (ReadResult.otherError e)).1.rows = []
      ∧ (mkAnalyzer path ReadResult.fileNotFound).2.length = 1
      ∧ (mkAnalyzer path (ReadResult.otherError e)).2.length = 1 := by
  intro path e
  exact ⟨rfl, rfl, rfl, rfl, rfl, rfl⟩

/-- C5 theorem applied at a concrete missing path: empty dataset, one dialog. -/
theorem C5_load_failure_witness :
    (mkAnalyzer "missing.csv" ReadResult.fileNotFound).1.rows = []
    ∧ (mkAnalyzer "missing.csv" ReadResult.fileNotFound).2.length = 1 :=
  ⟨(C5_load_failure "missing.csv" "err").2.2.1,
   (C5_load_failure "missing.csv" "err").2.2.2.2.1⟩

/-- C6: for every line the loop reads, with `choice` the stripped line, the
table view is dispatched iff `choice = "1"`, the chart suite iff
`choice = "2"`, `"3"` prints the farewell and ends the trace, and any other
choice prints the invalid-input message and continues; on the input sequence
`["9","1","3"]` the trace is exactly one invalid-input message, one table
invocation, then the farewell, with no further prompts. -/
theorem C6_menu_dispatch :
    (∀ (line : String) (rest : List String),
        ((run (line :: rest)).take 2 = [MenuEvent.prompt, MenuEvent.invokeTable]
          ↔ pyStrip line = "1")
      ∧ ((run (line :: rest)).take 2 = [MenuEvent.prompt, MenuEvent.invokeCharts]
          ↔ pyStrip line = "2")
      ∧ (pyStrip line = "3" → run (line :: rest) = [MenuEvent.prompt, MenuEvent.farewell])
      ∧ (pyStrip line ≠ "1" → pyStrip line ≠ "2" → pyStrip line ≠ "3" →
          run (line :: rest) = MenuEvent.prompt :: MenuEvent.invalidMsg :: run rest))
    ∧ run ["9", "1", "3"]
        = [MenuEvent.prompt, MenuEvent.invalidMsg, MenuEvent.prompt, MenuEvent.invokeTable,
           MenuEvent.prompt, MenuEvent.farewell] := by
  refine ⟨?_, by decide⟩
  intro line rest
  by_cases h1 : pyStrip line = "1"
  · simp [run, h1]
  · by_cases h2 : pyStrip line = "2"
    · simp [run, h1, h2]
    · by_cases h3 : pyStrip line = "3"
      · simp [run, h1, h2, h3]
      · simp [run, h1, h2, h3]

/-- C6 theorem applied to the concrete unrecognized input `"9"`. -/
theorem C6_menu_dispatch_witness :
    run ["9"] = [MenuEvent.prompt, MenuEvent.invalidMsg] := by
  have h := (C6_menu_dispatch.1 "9" []).2.2.2 (by decide) (by decide) (by decide)
  simpa [run] using h

/-- Both loader outcomes and the category step only build well-formed frames. -/
theorem setup_wf (rows : List Record) : DataFrame.wf (setup_quality_categories ⟨rows, none⟩) := by
  intro cats hc
  unfold setup_quality_categories at hc ⊢
  by_cases h : DataFrame.isEmpty ⟨rows, none⟩ = true
  · simp [h] at hc
  · simp [h] at hc ⊢
    simp [← hc]

/-- A well-formed frame feeds the table one value row per record. -/
theorem tableValues_length (df : DataFrame) (h : df.wf) :
    (tableValues df).length = df.rows.length := by
  unfold tableValues
  cases hc : df.catColumn with
  | none => simp
  | some cats => simp [h cats hc]

/-- The record part of the table's value rows is exactly the frame's rows. -/
theorem tableValues_fst (df : DataFrame) (h : df.wf) :
    (tableValues df).map Prod.fst = df.rows := by
  unfold tableValues
  cases hc : df.catColumn with
  | none =>
    simp only [List.map_map]
    have hid : (Prod.fst ∘ fun r : Record => (r, (none : Option (Option String)))) = id := rfl
    rw [hid, List.map_id]
  | some cats =>
    rw [List.map_map]
    have hz : (Prod.fst ∘ fun p : Record × Option String => (p.1, some p.2))
        = (Prod.fst : Record × Option String → Record) := rfl
    rw [hz, List.map_fst_zip]
    exact le_of_eq (h cats hc).symm

/-- C7: every frame the program constructs is well-formed, and on a
well-formed non-empty frame the table action shows no error, opens the view,
displays exactly `min 200 len` rows whose record parts are the first 200
records in dataset order, and tags the row at 0-based position `i` as
`evenrow` exactly when its 1-based index `i + 1` is even. -/
theorem C7_table_rows :
    (∀ (path : String) (res : ReadResult), DataFrame.wf (mkAnalyzer path res).1)
    ∧ (∀ df : DataFrame, df.wf → df.isEmpty = false →
        (show_full_dataset df).1.dialogs = []
        ∧ (show_full_dataset df).1.view = some (tableRows df)
        ∧ (tableRows df).length = min 200 df.rows.length
        ∧ (tableRows df).map (fun p => p.1.1) = df.rows.take 200
        ∧ ∀ (i : Nat) (hi : i < (tableRows df).length),
            ((tableRows df).get ⟨i, hi⟩).2
              = if (i + 1) % 2 = 0 then "evenrow" else "oddrow") := by
  constructor
  · intro path res
    cases res with
    | ok rows => exact setup_wf (dropna rows)
    | fileNotFound => exact setup_wf []
    | otherError e => exact setup_wf []
  · intro df hwf hne
    refine ⟨by simp [show_full_dataset, hne], by simp [show_full_dataset, hne], ?_, ?_, ?_⟩
    · simp [tableRows, tableValues_length df hwf]
    · have h1 : (tableRows df).map (fun p => p.1)
          = (tableValues df).take 200 := by
        simp [tableRows, List.map_map]
        have : ((fun p : (Record × Option (Option String)) × String => p.1)
            ∘ fun p : Nat × (Record × Option (Option String)) =>
              (p.2, if (p.1 + 1) % 2 = 0 then "evenrow" else "oddrow"))
            = Prod.snd := rfl
        rw [this, List.enum_map_snd]
      calc (tableRows df).map (fun p => p.1.1)
          = ((tableRows df).map (fun p => p.1)).map Prod.fst := by
            simp [List.map_map]
        _ = ((tableValues df).take 200).map Prod.fst := by rw [h1]
        _ = ((tableValues df).map Prod.fst).take 200 := List.map_take _ _ _
        _ = df.rows.take 200 := by rw [tableValues_fst df hwf]
    · intro i hi
      simp [tableRows, List.get_eq_getElem]

/-- C7 theorem applied to a concrete one-record frame: no error dialog, and
one displayed row. -/
theorem C7_table_rows_witness :
    (show_full_dataset ⟨[sampleRecord], none⟩).1.dialogs = []
    ∧ (tableRows ⟨[sampleRecord], none⟩).length
        = min 200 (⟨[sampleRecord], none⟩ : DataFrame).rows.length := by
  have h := C7_table_rows.2 ⟨[sampleRecord], none⟩ (fun cats hc => by cases hc) rfl
  exact ⟨h.1, h.2.2.1⟩

/-- C8: the displayed text of every error dialog — file not found, generic
load failure, and the two no-data dialogs — equals its message word-wrapped at
width 60.  (The chart suite's no-data dialog is passed to the toolkit without
going through `show_error_message`; its fixed 22-character message is its own
60-wrapped form, so the displayed text still equals the wrap.) -/
theorem C8_error_wrap :
    ∀ (path e : String) (df : DataFrame), df.isEmpty = true →
      (read_file path ReadResult.fileNotFound).2.map Dialog.text
        = [pyFill 60 ("Файл \x27" ++ path ++ "\x27 не найден. Проверь путь и повтори попытку.")]
      ∧ (read_file path (ReadResult.otherError e)).2.map Dialog.text
        = [pyFill 60 ("Не удалось загрузить данные:\n" ++ e)]
      ∧ (show_full_dataset df).1.dialogs.map Dialog.text
        = [pyFill 60 "Нет данных для отображения"]
      ∧ (show_analytics df).1.dialogs.map Dialog.text
        = [pyFill 60 "Нет данных для анализа"] := by
  intro path e df h
  refine ⟨rfl, rfl, ?_, ?_⟩
  · simp [show_full_dataset, h, show_error_message]
  · simp [show_analytics, h]
    decide

/-- C8 theorem applied at the default path, a concrete error text and the
empty frame. -/
theorem C8_error_wrap_witness :
    (show_analytics ⟨[], none⟩).1.dialogs.map Dialog.text
      = [pyFill 60 "Нет данных для анализа"] :=
  (C8_error_wrap "Sleep_health_and_lifestyle_dataset.csv" "parser error" ⟨[], none⟩ rfl).2.2.2

/-- The table action never rebinds the frame. -/
theorem show_full_dataset_preserves (df : DataFrame) : (show_full_dataset df).2 = df := by
  unfold show_full_dataset
  split <;> rfl

/-- The chart-suite action never rebinds the frame. -/
theorem show_analytics_preserves (df : DataFrame) : (show_analytics df).2 = df := by
  unfold show_analytics
  split <;> rfl

/-- C9: after construction the dataset is never mutated: every sequence of
table-view and chart-suite actions leaves the frame — rows, derived column,
values and order — exactly as it was; and the category step, the one mutation
of the lifecycle, only adds the derived column and touches no row. -/
theorem C9_dataset_immutable :
    (∀ (acts : List UserAction) (df : DataFrame), runActions acts df = df)
    ∧ (∀ df : DataFrame, (setup_quality_categories df).rows = df.rows) := by
  constructor
  · intro acts
    induction acts with
    | nil => intro df; rfl
    | cons a rest ih =>
      intro df
      have ha : applyAction a df = df := by
        cases a
        · exact show_full_dataset_preserves df
        · exact show_analytics_preserves df
      rw [runActions, ha, ih df]
  · intro df
    unfold setup_quality_categories
    split <;> rfl

/-- C9 theorem applied to a concrete frame and action sequence. -/
theorem C9_dataset_immutable_witness :
    runActions [UserAction.table, UserAction.charts] ⟨[sampleRecord], none⟩
      = ⟨[sampleRecord], none⟩ :=
  C9_dataset_immutable.1 [UserAction.table, UserAction.charts] ⟨[sampleRecord], none⟩

/-- C10: a successful read whose rows all drop (or that has no rows) builds
the analyzer silently — no dialog, no derived column — and the empty state is
reported only when a data-dependent action runs: each then shows its no-data
dialog. -/
theorem C10_empty_load_silent :
    ∀ (path : String) (rows : List Record), dropna rows = [] →
      mkAnalyzer path (ReadResult.ok rows) = (⟨[], none⟩, [])
      ∧ (show_full_dataset (mkAnalyzer path (ReadResult.ok rows)).1).1
          = { dialogs := [show_error_message "Нет данных для отображения"], view := none }
      ∧ (show_analytics (mkAnalyzer path (ReadResult.ok rows)).1).1
          = { dialogs := [{ title := "Ошибка", text := "Нет данных для анализа" }],
              charts := [] } := by
  intro path rows h
  have hmk : mkAnalyzer path (ReadResult.ok rows) = (⟨[], none⟩, []) := by
    simp [mkAnalyzer, read_file, h, setup_quality_categories, DataFrame.isEmpty]
  refine ⟨hmk, ?_, ?_⟩ <;> rw [hmk] <;> rfl

/-- C10 theorem applied to a one-row file whose only row misses a field. -/
theorem C10_empty_load_silent_witness :
    mkAnalyzer "data.csv" (ReadResult.ok [{ sampleRecord with gender := none }])
        = (⟨[], none⟩, [])
    ∧ (show_analytics
          (mkAnalyzer "data.csv" (ReadResult.ok [{ sampleRecord with gender := none }])).1).1
        = { dialogs := [{ title := "Ошибка", text := "Нет данных для анализа" }],
            charts := [] } := by
  have h := C10_empty_load_silent "data.csv" [{ sampleRecord with gender := none }] (by decide)
  exact ⟨h.1, h.2.2⟩

end SleepHealth
